import Mathlib

set_option maxHeartbeats 1000000

/-!
Verification of the mindcraft fleet supervisor.

This file gives a shallow embedding of the two core components of the
repository and proves the specified properties about them:

* the per-agent process supervisor, `class AgentProcess` in
  `src/process/agent_process.js` (`start` with its exit observer and
  restart policy, `stop`, `continue`);
* the console command registry and dispatcher in `main.js`
  (`toCommandMap`, `buildCliCommands`, `parseCommand`, `resolveCommand`,
  the `rl.on` line handler) together with the startup loop that
  populates the fleet registry.

Side effects (spawning a child, `process.exit`, console reports,
`mainProxy` notifications) are modelled as explicit action values
emitted by the embedded functions, so that every code path is a total,
executable Lean function.
-/

namespace Mindcraft

/-- Arguments of one call to `AgentProcess.start`:
`start(profile, load_memory, init_message, count_id, task_path, task_id)`.
The spec calls the second field `isResuming`; the source names it
`load_memory` and the automatic restart and `continue()` both pass `true`
for it.  JS `null`/`undefined` string arguments are modelled as `none`. -/
structure StartCall where
  profile : String
  load_memory : Bool
  init_message : Option String
  count_id : Int
  task_path : Option String
  task_id : Option String
deriving DecidableEq

/-- The fixed announcement passed by the automatic restart (line 54) and by
`continue()` (line 87). -/
def restartMessage : String := "Agent process restarted."

/-- Observable side effects of the supervisor code paths:
`mainProxy.logoutAgent`, whole-program `process.exit`, the rate-limit
`console.error` report, delivery of SIGINT by `stop()`, the caught
signal-delivery error report of `stop()`, and a `spawn` of the worker
with the given start arguments. -/
inductive ExitAction where
  | logout (name : String)
  | programExit (code : Int)
  | rateLimitReport (profile : String)
  | sigintSent
  | stopErrorReported
  | spawn (call : StartCall)
deriving DecidableEq

/-- Whether an action is a worker spawn (a (re)start of the agent). -/
def ExitAction.isSpawn : ExitAction → Bool
  | .spawn _ => true
  | _ => false

/-- Whether a JS exit code value is a number strictly greater than 1
(`typeof code === "number" && code > 1`, line 40). -/
def isFatalCode : Option Int → Bool
  | some c => decide (1 < c)
  | none => false

/-- Lines 45-55 of `agent_process.js`: the restart policy of the exit
observer.  Restart if abnormal exit (`code !== 0`) and not via SIGINT,
guarded by the 10000 ms cool-down against the timestamp `last` of the
most recent spawn.  Returns the new value of `this.running` together
with the emitted actions. -/
def exitRestartPhase (name profile : String) (count_id : Int)
    (task_path task_id : Option String) (last now : Nat)
    (code : Option Int) (signal : Option String) : Bool × List ExitAction :=
  if code ≠ some 0 ∧ signal ≠ some "SIGINT" then
    if now - last < 10000 then
      (false, [.logout name, .rateLimitReport profile])
    else
      (true, [.logout name,
        .spawn ⟨profile, true, some restartMessage, count_id, task_path, task_id⟩])
  else
    (false, [.logout name])

/-- Lines 34-56 of `agent_process.js`: the exit observer registered by
`start`.  It closes over the start arguments (`profile`, `count_id`,
`task_path`, `task_id`) and the spawn timestamp `last`; it receives the
exit `code` (an integer or `null`) and the termination `signal`.
It sets `running := false`, notifies `mainProxy.logoutAgent`, terminates
the whole program when the code is a number greater than 1, and
otherwise applies the restart policy.  The returned `Bool` is the final
value of `this.running` (`true` exactly when the recursive `start` ran). -/
def exitObserver (name profile : String) (count_id : Int)
    (task_path task_id : Option String) (last now : Nat)
    (code : Option Int) (signal : Option String) : Bool × List ExitAction :=
  match code with
  | some c =>
    if 1 < c then
      (false, [.logout name, .programExit c])
    else
      exitRestartPhase name profile count_id task_path task_id last now code signal
  | none => exitRestartPhase name profile count_id task_path task_id last now code signal

/-- The mutable state of one `AgentProcess` instance, together with the
variables captured by the exit observer of its most recent spawn.
`hasProc` models `this.process !== null`; `lastRestart` is the
`last_restart` local of the most recent `start` call; `task_path` and
`task_id` are the task references captured by that call. -/
structure SupSt where
  name : String
  profile : String
  count_id : Int
  running : Bool
  hasProc : Bool
  task_path : Option String
  task_id : Option String
  lastRestart : Nat
deriving DecidableEq

/-- A freshly constructed `AgentProcess` (constructor, lines 5-11):
`profile = null` (modelled as the empty string), `count_id = 0`,
`running = false`, `process = null`. -/
def freshAgent (name : String) : SupSt :=
  { name := name, profile := "", count_id := 0, running := false,
    hasProc := false, task_path := none, task_id := none, lastRestart := 0 }

/-- `AgentProcess.start` (lines 13-32): records the arguments on `this`,
sets `running := true`, spawns the worker, and records the spawn time in
the observer closure (`last_restart = Date.now()`). -/
def startFn (st : SupSt) (call : StartCall) (now : Nat) : SupSt × List ExitAction :=
  ({ st with profile := call.profile, count_id := call.count_id,
             running := true, hasProc := true,
             task_path := call.task_path, task_id := call.task_id,
             lastRestart := now },
   [.spawn call])

/-- `AgentProcess.stop` (lines 63-71): returns immediately unless
`running` and a process handle exist; otherwise attempts
`this.process.kill` with SIGINT — a throwing delivery (`killThrows`)
is caught and reported — and sets `running := false`. -/
def stopFn (st : SupSt) (killThrows : Bool) : SupSt × List ExitAction :=
  if ¬ st.running ∨ ¬ st.hasProc then
    (st, [])
  else
    ({ st with running := false },
     if killThrows then [.stopErrorReported] else [.sigintSent])

/-- `AgentProcess.continue` (lines 81-92): if not running, restart with
the previous state by calling
`this.start(this.profile, true, restartMessage, this.count_id)` —
note that `task_path` and `task_id` are not passed (they are not stored
on `this`), so the new spawn carries no task references. -/
def continueFn (st : SupSt) (now : Nat) : SupSt × List ExitAction :=
  if st.running then
    (st, [])
  else
    startFn st ⟨st.profile, true, some restartMessage, st.count_id, none, none⟩ now

/-- One firing of the exit observer of the most recent spawn, as a state
transition: the observer body runs on the closed-over fields recorded in
the state, and a restart re-runs `start` with the same profile, ordinal
index and task references, stamping the new spawn time. -/
def exitStep (st : SupSt) (now : Nat) (code : Option Int)
    (signal : Option String) : SupSt × List ExitAction :=
  let r := exitObserver st.name st.profile st.count_id st.task_path st.task_id
    st.lastRestart now code signal
  ({ st with running := r.1, lastRestart := if r.1 then now else st.lastRestart }, r.2)

/-- Events that can reach one supervisor after startup: an exit of its
current worker (with the observation timestamp, exit code and signal),
an operator `stop()`, and an operator `resume()` (`continue`). -/
inductive Ev where
  | exit (now : Nat) (code : Option Int) (signal : Option String)
  | stopCmd
  | resumeCmd (now : Nat)
deriving DecidableEq

/-- An event either is not an exit, or is an exit whose termination
signal is the interactive interrupt.  A worker killed by `stop()`
(which delivers SIGINT) terminates with this signal. -/
def Ev.sigintOnly : Ev → Bool
  | .exit _ _ signal => signal = some "SIGINT"
  | _ => true

/-- Whether an event is an operator `resume()` invocation. -/
def Ev.isResume : Ev → Bool
  | .resumeCmd _ => true
  | _ => false

/-- Dispatch of one event to the corresponding supervisor operation. -/
def step (st : SupSt) : Ev → SupSt × List ExitAction
  | .exit now code signal => exitStep st now code signal
  | .stopCmd => stopFn st false
  | .resumeCmd now => continueFn st now

/-- Run a sequence of events against a supervisor state, accumulating
the emitted actions. -/
def runEvents (st : SupSt) : List Ev → SupSt × List ExitAction
  | [] => (st, [])
  | e :: evs =>
    let r := step st e
    let rest := runEvents r.1 evs
    (rest.1, r.2 ++ rest.2)

/-! ### JS string primitives

The console layer of `main.js` uses `trim`, `startsWith`, `slice(1)`,
`split(' ')` and `toLowerCase` on command lines and command names.
They are embedded as structural functions on the character list of a
`String`, matching the JS semantics on the ASCII strings involved. -/

/-- ASCII whitespace, the relevant fragment of what JS `trim` removes. -/
def isJsSpace (c : Char) : Bool :=
  c == ' ' || c == '\t' || c == '\n' || c == '\r'

/-- JS `String.prototype.trim`: strip whitespace from both ends. -/
def jsTrim (s : String) : String :=
  String.mk (((s.data.dropWhile isJsSpace).reverse.dropWhile isJsSpace).reverse)

/-- JS `String.prototype.startsWith`. -/
def jsStartsWith (s p : String) : Bool :=
  List.isPrefixOf p.data s.data

/-- JS `slice(1)`: drop the first character. -/
def jsSlice1 (s : String) : String :=
  String.mk (s.data.drop 1)

/-- JS `String.prototype.toLowerCase` on ASCII strings. -/
def jsToLower (s : String) : String :=
  String.mk (s.data.map Char.toLower)

/-- Splitting a character list at every occurrence of `sep`;
`splitChars` of the empty string is `[""]`, as in JS `split`. -/
def splitCharsAux (sep : Char) : List Char → List Char → List (List Char)
  | [], acc => [acc.reverse]
  | c :: cs, acc =>
    if c == sep then acc.reverse :: splitCharsAux sep cs []
    else splitCharsAux sep cs (c :: acc)

/-- JS `split(' ')`. -/
def jsSplitSpace (s : String) : List String :=
  (splitCharsAux ' ' s.data []).map String.mk

/-! ### Command registry and dispatcher (`main.js`) -/

/-- One command definition: the fields of the objects stored in the
command table of `main.js` (`name` is the field read by `toCommandMap`;
`cliLegacy` entries leave it empty).  A handler is modelled by its
outcome on the argument list: `Except.error` is a thrown failure, and a
missing `handler` field is `none`. -/
structure CmdEntry where
  name : String := ""
  description : String := ""
  usage : String := ""
  aliases : List String := []
  handler : Option (List String → Except String Unit) := none

/-- JS object/`Map` keyed insertion: replace the value of an existing
key in place, otherwise append the new binding. -/
def mapSet {α : Type} : List (String × α) → String → α → List (String × α)
  | [], k, v => [(k, v)]
  | p :: rest, k, v =>
    if p.1 = k then (k, v) :: rest else p :: mapSet rest k v

/-- JS object/`Map` key lookup: first binding of the key, if any. -/
def lookupName {α : Type} : List (String × α) → String → Option α
  | [], _ => none
  | p :: rest, k => if p.1 = k then some p.2 else lookupName rest k

/-- `toCommandMap` (lines 32-40), array branch: key each action object
with a non-empty `name` under its lower-cased name. -/
def toCommandMap (actions : List CmdEntry) : List (String × CmdEntry) :=
  actions.foldl
    (fun out obj =>
      if obj.name = "" then out else mapSet out (jsToLower obj.name) obj)
    []

/-- The `help` entry of `cliLegacy` (lines 48-64); its handler prints
the command table, which the model records as plain success. -/
def helpEntry : CmdEntry :=
  { description := "Show this help message.", usage := "!help or !?",
    aliases := ["?", "h"], handler := some (fun _ => Except.ok ()) }

/-- The `exit` entry of `cliLegacy` (lines 66-74); its handler calls
`process.exit(0)`, which the model records as plain success. -/
def exitEntry : CmdEntry :=
  { description := "Exit the program.", usage := "!exit",
    aliases := ["quit"], handler := some (fun _ => Except.ok ()) }

/-- The `cliLegacy` table of `buildCliCommands`, in insertion order. -/
def cliLegacy : List (String × CmdEntry) :=
  [("help", helpEntry), ("exit", exitEntry)]

/-- Object spread merge: the bindings of `b` override those of `a`. -/
def objMerge (a b : List (String × CmdEntry)) : List (String × CmdEntry) :=
  b.foldl (fun acc p => mapSet acc p.1 p.2) a

/-- `buildCliCommands` (lines 44-81): the case-folded builtin commands
overlaid with the console-only `help` and `exit` entries. -/
def buildCliCommands (builtins : List CmdEntry) : List (String × CmdEntry) :=
  objMerge (toCommandMap builtins) cliLegacy

/-- The command table of a session with no externally supplied builtins. -/
def cliCommands : List (String × CmdEntry) :=
  buildCliCommands []

/-- A handler that always throws; used to exercise the failure path of
the dispatcher. -/
def boomHandler : List String → Except String Unit :=
  fun _ => Except.error "boom failed"

/-- A builtin command whose handler always throws. -/
def boomEntry : CmdEntry :=
  { name := "boom", handler := some boomHandler }

/-- A command table with one builtin whose handler always throws. -/
def demoCommands : List (String × CmdEntry) :=
  buildCliCommands [boomEntry]

/-- `parseCommand` (lines 83-88): a trimmed line starting with the `!`
prefix yields a lower-cased command token and the whitespace-split
argument list; any other line is not a command. -/
def parseCommand (line : String) : Option (String × List String) :=
  let trimmed := jsTrim line
  if jsStartsWith trimmed "!" then
    let parts := jsSplitSpace (jsSlice1 trimmed)
    some (jsToLower (parts.headD ""), parts.tail)
  else
    none

/-- `resolveCommand` (lines 94-101): case-fold the token, then scan the
table for the first entry whose stored name equals the folded token or
whose case-folded aliases contain it. -/
def resolveCommand (cmd : String) (commands : List (String × CmdEntry)) : Option String :=
  let arg := jsToLower cmd
  (commands.find?
      (fun p => p.1 == arg || (p.2.aliases.map jsToLower).contains arg)).map
    (fun p => p.1)

/-- The resolution rule as the spec words it: the case-folded token is
compared against the case-folded registered name, or against the
case-folded aliases of that entry. -/
def resolveSpec (cmd : String) (commands : List (String × CmdEntry)) : Option String :=
  let arg := jsToLower cmd
  (commands.find?
      (fun p => jsToLower p.1 == arg || (p.2.aliases.map jsToLower).contains arg)).map
    (fun p => p.1)

/-- Observable outcome of one dispatched console line. -/
inductive Outcome where
  | noop
  | unknownCommand
  | ok
  | errorReported (msg : String)
deriving DecidableEq

/-- Result of dispatching a line: which handler function was invoked
(if any) and the reported outcome. -/
structure DispatchResult where
  invoked : Option String
  outcome : Outcome
deriving DecidableEq

/-- The `rl.on` line handler of `main.js` (lines 180-201): a non-command
line is a no-op; an unresolvable token reports an unknown command; an
entry without a handler throws inside the `try` and is caught; a
handler failure is caught and reported.  Every path returns normally. -/
def dispatch (line : String) (commands : List (String × CmdEntry)) : DispatchResult :=
  match parseCommand line with
  | none => ⟨none, .noop⟩
  | some (cmd, args) =>
    match resolveCommand cmd commands with
    | none => ⟨none, .unknownCommand⟩
    | some name =>
      match lookupName commands name with
      | none => ⟨none, .errorReported "No handler for command"⟩
      | some entry =>
        match entry.handler with
        | none => ⟨none, .errorReported "No handler for command"⟩
        | some h =>
          match h args with
          | .ok _ => ⟨some name, .ok⟩
          | .error e => ⟨some name, .errorReported e⟩

/-- The command token of a line, as extracted by `parseCommand`. -/
def lineCmd (line : String) : String :=
  jsToLower ((jsSplitSpace (jsSlice1 (jsTrim line))).headD "")

/-- The argument list of a line, as extracted by `parseCommand`. -/
def lineArgs (line : String) : List String :=
  (jsSplitSpace (jsSlice1 (jsTrim line))).tail

/-! ### Worker invocation arguments (`AgentProcess.start`, lines 18-24) -/

/-- The flag strings used in the worker argument vector. -/
def spawnFlags : List String := ["-p", "-c", "-l", "-m", "-t", "-i"]

/-- Whether an optional string is absent or differs from every flag. -/
def notFlag (o : Option String) : Bool :=
  o.all (fun s => !(spawnFlags.contains s))

/-- The truthy value of an optional JS string: `none` for `null` and
for the empty string. -/
def optTruthy : Option String → Option String
  | some s => if s = "" then none else some s
  | none => none

/-- Lines 18-24 of `agent_process.js`: the argument vector handed to
`spawn`: the script, the agent name, `-p profile`, `-c count_id`, and
the truthy optional fields under `-l`, `-m`, `-t`, `-i`
(`String(load_memory)` is `"true"` when pushed). -/
def buildArgs (name profile : String) (load_memory : Bool)
    (init_message : Option String) (count_id : Int)
    (task_path task_id : Option String) : List String :=
  let args := ["src/process/init_agent.js", name]
  let args := args ++ ["-p", profile]
  let args := args ++ ["-c", toString count_id]
  let args := if load_memory then args ++ ["-l", "true"] else args
  let args := match init_message with
    | some m => if m = "" then args else args ++ ["-m", m]
    | none => args
  let args := match task_path with
    | some t => if t = "" then args else args ++ ["-t", t]
    | none => args
  let args := match task_id with
    | some t => if t = "" then args else args ++ ["-i", t]
    | none => args
  args

/-- The value following the first occurrence of a flag in an argument
vector, if any. -/
def flagVal : List String → String → Option String
  | [], _ => none
  | a :: rest, f => if a = f then rest.head? else flagVal rest f

/-- Node stringifies each element of the `spawn` argument array; an
`undefined` element becomes the string `"undefined"`. -/
def jsArgString : Option String → String
  | some s => s
  | none => "undefined"

/-- The argv of the worker spawned at startup for the profile at
position `i` (`main.js` lines 122-152): line 123 constructs the
supervisor with `new AgentProcess()` and no name argument, so
`this.name` is `undefined` and the positional name slot of the spawn
arguments (line 18 of `agent_process.js`) holds the stringified
`undefined` — the parsed profile name is never handed to the
supervisor. -/
def startupSpawnArgs (profilePath : String) (load_memory : Bool)
    (init_message : Option String) (i : Int)
    (task_path task_id : Option String) : List String :=
  buildArgs (jsArgString none) profilePath load_memory init_message i
    task_path task_id

/-! ### Startup loop (`main.js`, lines 122-156)

For each profile path in order, the loop reads and parses the profile
file — skipping the agent on a read or parse failure — then registers
the new supervisor in the fleet registry under the parsed `name` field
(`agentsByName.set`, line 141) and starts the worker.  A profile is
abstracted by the outcome of reading and parsing it. -/

/-- Outcome of reading and parsing one profile file: the `readFileSync`
throw, the `JSON.parse` throw, or the parsed `name` field. -/
inductive ProfileOutcome where
  | readFail
  | parseFail
  | ok (name : String)
deriving DecidableEq

/-- The startup loop from position `i` with the fleet registry `reg`
(name to ordinal of the supervisor bound to it) and the ordinals `sp`
of the workers spawned so far. -/
def startupGo : List ProfileOutcome → Nat → List (String × Nat) → List Nat →
    List (String × Nat) × List Nat
  | [], _, reg, sp => (reg, sp)
  | .readFail :: rest, i, reg, sp => startupGo rest (i + 1) reg sp
  | .parseFail :: rest, i, reg, sp => startupGo rest (i + 1) reg sp
  | .ok name :: rest, i, reg, sp =>
    startupGo rest (i + 1) (mapSet reg name i) (sp ++ [i])

/-- The whole startup loop: the final fleet registry and the ordinals of
the spawned workers. -/
def runStartup (ps : List ProfileOutcome) : List (String × Nat) × List Nat :=
  startupGo ps 0 [] []

/-- The position of the last profile, counting from `i`, that parsed to
the given name. -/
def lastOkIndexFrom (name : String) (i : Nat) : List ProfileOutcome → Option Nat
  | [] => none
  | p :: rest =>
    match lastOkIndexFrom name (i + 1) rest with
    | some j => some j
    | none => if p = ProfileOutcome.ok name then some i else none

/-- The positions, counting from `i`, of the profiles that parsed
successfully (each of which spawned a worker). -/
def okIndicesFrom (i : Nat) : List ProfileOutcome → List Nat
  | [] => []
  | .ok _ :: rest => i :: okIndicesFrom (i + 1) rest
  | .readFail :: rest => okIndicesFrom (i + 1) rest
  | .parseFail :: rest => okIndicesFrom (i + 1) rest

/-! ### Demonstration states used by concrete instances -/

/-- A start call carrying both task references. -/
def cexDescriptor : StartCall :=
  { profile := "profiles/andy.json", load_memory := false, init_message := none,
    count_id := 0, task_path := some "tasks/build.json", task_id := some "t1" }

/-- A supervisor that has started the worker of `cexDescriptor`. -/
def runningAgent : SupSt :=
  (startFn (freshAgent "andy") cexDescriptor 0).1

/-- The supervisor `runningAgent` after an operator `stop()`. -/
def cexStopped : SupSt :=
  (stopFn runningAgent false).1

/-! ### Helper lemmas -/

theorem exitObserver_deliberate (name profile : String) (count_id : Int)
    (task_path task_id : Option String) (last now : Nat)
    (code : Option Int) (signal : Option String)
    (h : code = some 0 ∨ signal = some "SIGINT") :
    (exitObserver name profile count_id task_path task_id last now code signal).1 = false
    ∧ ((exitObserver name profile count_id task_path task_id last now
          code signal).2.any ExitAction.isSpawn) = false := by
  rcases h with h | h
  · subst h
    simp [exitObserver, exitRestartPhase, ExitAction.isSpawn]
  · subst h
    cases code with
    | none => simp [exitObserver, exitRestartPhase, ExitAction.isSpawn]
    | some c =>
      by_cases hc : 1 < c
      · simp [exitObserver, hc, ExitAction.isSpawn]
      · simp [exitObserver, hc, exitRestartPhase, ExitAction.isSpawn]

/-! ### The claims about the supervisor exit observer -/

/-- Claim C1: for every agent, when the exit observer runs with an exit
code that is a number strictly greater than 1, the supervising program
terminates with that same exit code, after setting `running := false`
and notifying logout; no restart is attempted for such an exit. -/
theorem fatal_exit_passthrough (name profile : String) (count_id : Int)
    (task_path task_id : Option String) (last now : Nat)
    (signal : Option String) (c : Int) (hc : 1 < c) :
    exitObserver name profile count_id task_path task_id last now (some c) signal =
      (false, [ExitAction.logout name, ExitAction.programExit c]) := by
  simp [exitObserver, hc]

theorem fatal_exit_passthrough_witness :
    exitObserver "andy" "profiles/andy.json" 0 none none 0 500 (some 2) none =
      (false, [ExitAction.logout "andy", ExitAction.programExit 2]) :=
  fatal_exit_passthrough "andy" "profiles/andy.json" 0 none none 0 500 none 2
    (by decide)

/-- Claim C2: for a restart-candidate exit (code not `0`, signal not
SIGINT, code not a number above 1), the exit observer abandons the
restart and reports a rate-limit failure, leaving the supervisor
not-running, when less than 10000 ms elapsed since the most recent
spawn timestamp; otherwise it calls `start` again with
`load_memory = true` (the spec's `isResuming`), the fixed restart
announcement, and the same profile, ordinal index and task references. -/
theorem restart_cooldown_guard (name profile : String) (count_id : Int)
    (task_path task_id : Option String) (last now : Nat)
    (code : Option Int) (signal : Option String)
    (h0 : code ≠ some 0) (hs : signal ≠ some "SIGINT")
    (hf : isFatalCode code = false) :
    exitObserver name profile count_id task_path task_id last now code signal =
      if now - last < 10000 then
        (false, [ExitAction.logout name, ExitAction.rateLimitReport profile])
      else
        (true, [ExitAction.logout name,
          ExitAction.spawn ⟨profile, true, some restartMessage, count_id,
            task_path, task_id⟩]) := by
  cases code with
  | none => simp [exitObserver, exitRestartPhase, hs]
  | some c =>
    have hc : ¬ (1 < c) := by simpa [isFatalCode] using hf
    simp [exitObserver, hc, exitRestartPhase, h0, hs]

theorem restart_cooldown_guard_witness :
    exitObserver "andy" "profiles/andy.json" 0 (some "tasks/build.json")
        (some "t1") 0 500 (some 1) none =
      if 500 - 0 < 10000 then
        (false, [ExitAction.logout "andy", ExitAction.rateLimitReport "profiles/andy.json"])
      else
        (true, [ExitAction.logout "andy",
          ExitAction.spawn ⟨"profiles/andy.json", true, some restartMessage, 0,
            some "tasks/build.json", some "t1"⟩]) :=
  restart_cooldown_guard "andy" "profiles/andy.json" 0 (some "tasks/build.json")
    (some "t1") 0 500 (some 1) none (by decide) (by decide) (by decide)

/-- Claim C3: if the worker exits with code exactly 0, or with the
SIGINT termination signal, the exit observer leaves the supervisor
not-running and attempts no restart, regardless of the elapsed time
since the last start. -/
theorem deliberate_exit_no_restart (name profile : String) (count_id : Int)
    (task_path task_id : Option String) (last now : Nat)
    (code : Option Int) (signal : Option String)
    (h : code = some 0 ∨ signal = some "SIGINT") :
    (exitObserver name profile count_id task_path task_id last now code signal).1 = false
    ∧ ((exitObserver name profile count_id task_path task_id last now
          code signal).2.any ExitAction.isSpawn) = false :=
  exitObserver_deliberate name profile count_id task_path task_id last now code signal h

theorem deliberate_exit_no_restart_witness :
    (exitObserver "andy" "profiles/andy.json" 0 none none 0 50000 (some 0) none).1 = false
    ∧ ((exitObserver "andy" "profiles/andy.json" 0 none none 0 50000
          (some 0) none).2.any ExitAction.isSpawn) = false :=
  deliberate_exit_no_restart "andy" "profiles/andy.json" 0 none none 0 50000
    (some 0) none (Or.inl rfl)

/-! ### The claims about stop and resume -/

/-- Claim C5: `stop()` is a no-op when the supervisor is not running;
when it is running (and so, by the supervisor invariant, holds a live
process handle) it delivers SIGINT to the child and sets
`running := false`; a throwing signal delivery is caught and reported,
never propagated, and `running` still transitions to `false`. -/
theorem stop_contract (st : SupSt) (killThrows : Bool)
    (hinv : st.running = true → st.hasProc = true) :
    stopFn st killThrows =
      if st.running then
        ({ st with running := false },
         if killThrows then [ExitAction.stopErrorReported] else [ExitAction.sigintSent])
      else
        (st, []) := by
  by_cases hr : st.running = true
  · have hp := hinv hr
    simp [stopFn, hr, hp]
  · simp [stopFn, hr]

theorem stop_contract_witness :
    stopFn runningAgent true =
      if runningAgent.running then
        ({ runningAgent with running := false }, [ExitAction.stopErrorReported])
      else
        (runningAgent, []) :=
  stop_contract runningAgent true (fun _ => rfl)

/-- Claim C6, corrected: `continue()` is a no-op when running; otherwise
it calls `start` with the stored profile and ordinal index,
`load_memory = true` (the spec's `isResuming`) and the restart
announcement, with no cool-down guard — but it does not pass the task
reference pair, so the restarted worker carries no task path or id. -/
theorem continue_contract (st : SupSt) (now : Nat) :
    continueFn st now =
      if st.running then (st, [])
      else
        ({ st with running := true, hasProc := true,
                   task_path := none, task_id := none, lastRestart := now },
         [ExitAction.spawn ⟨st.profile, true, some restartMessage, st.count_id,
            none, none⟩]) := by
  by_cases hr : st.running = true <;> simp [continueFn, startFn, hr]

/-- Claim C6, counterexample to the claim as stated: a supervisor whose
worker was started with both task references and then stopped; the
spawn produced by `continue()` carries no task references, differing
from the start call the claim predicts. -/
theorem continue_task_refs_counterexample :
    (continueFn cexStopped 20000).2 =
      [ExitAction.spawn ⟨"profiles/andy.json", true, some restartMessage, 0,
        none, none⟩]
    ∧ cexStopped.task_path = some "tasks/build.json"
    ∧ cexStopped.task_id = some "t1"
    ∧ (continueFn cexStopped 20000).2 ≠
      [ExitAction.spawn ⟨"profiles/andy.json", true, some restartMessage, 0,
        cexStopped.task_path, cexStopped.task_id⟩] := by
  refine ⟨rfl, rfl, rfl, ?_⟩
  decide

/-- From a not-running state, a sequence of events containing no
`resume()` and only SIGINT-signalled exits keeps the supervisor
not-running and spawns no worker. -/
theorem runEvents_no_restart (evs : List Ev) : ∀ st : SupSt, st.running = false →
    evs.all Ev.sigintOnly = true → evs.all (fun e => !e.isResume) = true →
    (runEvents st evs).1.running = false
    ∧ ((runEvents st evs).2.any ExitAction.isSpawn) = false := by
  induction evs with
  | nil =>
    intro st h _ _
    simpa [runEvents] using h
  | cons e evs ih =>
    intro st hst hsig hres
    rw [List.all_cons, Bool.and_eq_true] at hsig hres
    cases e with
    | exit now code signal =>
      have hsg : signal = some "SIGINT" := by
        simpa [Ev.sigintOnly] using hsig.1
      have hobs := exitObserver_deliberate st.name st.profile st.count_id
        st.task_path st.task_id st.lastRestart now code signal (Or.inr hsg)
      have hrun : (exitStep st now code signal).1.running = false := by
        simp [exitStep, hobs.1]
      have hrec := ih (exitStep st now code signal).1 hrun hsig.2 hres.2
      have hacts : ((exitStep st now code signal).2.any ExitAction.isSpawn) = false := by
        simpa [exitStep] using hobs.2
      refine ⟨by simpa [runEvents, step] using hrec.1, ?_⟩
      simp only [runEvents, step, List.any_append]
      simp [hacts, hrec.2]
    | stopCmd =>
      have hstop : stopFn st false = (st, []) := by
        simp [stopFn, hst]
      have hrec := ih st hst hsig.2 hres.2
      refine ⟨by simpa [runEvents, step, hstop] using hrec.1, ?_⟩
      simp only [runEvents, step, hstop, List.nil_append]
      exact hrec.2
    | resumeCmd now =>
      exfalso
      simpa [Ev.isResume] using hres.1

/-- Claim C4, counterexample to the claim as stated: the exit observer
(lines 34-56) never consults `this.running`, so a `stop()` does not
disable it.  After stopping `runningAgent`, a single exit-observer
firing whose worker trapped SIGINT and exited with code 1 and no
signal, 20000 ms after the spawn, re-spawns the worker and leaves the
supervisor running — an automatic restart after `stop()` with no
`resume()` or external restart. -/
theorem stop_restart_counterexample :
    ((runEvents (stopFn runningAgent false).1
        [Ev.exit 20000 (some 1) none]).2.any ExitAction.isSpawn) = true
    ∧ (runEvents (stopFn runningAgent false).1
        [Ev.exit 20000 (some 1) none]).1.running = true := by
  decide

/-- Claim C4, amended: after a `stop()` call the supervisor is not
running, and over any subsequent sequence of exit-observer firings that
report the SIGINT termination signal — the signal `stop()` delivered to
kill the worker — it never restarts the worker and stays not-running,
unless `resume()` or an external restart is invoked.  (The exit
observer does not consult `running`, so a post-stop exit reporting a
non-zero code without the SIGINT signal does restart the worker once
the cool-down window has passed, as the counterexample shows.)
`stop()` requires the supervisor invariant that a running supervisor
holds a process handle. -/
theorem stop_then_never_restart (st : SupSt) (evs : List Ev)
    (hinv : st.running = true → st.hasProc = true)
    (hsig : evs.all Ev.sigintOnly = true)
    (hres : evs.all (fun e => !e.isResume) = true) :
    (stopFn st false).1.running = false
    ∧ (runEvents (stopFn st false).1 evs).1.running = false
    ∧ ((runEvents (stopFn st false).1 evs).2.any ExitAction.isSpawn) = false := by
  have h1 : (stopFn st false).1.running = false := by
    by_cases hr : st.running = true
    · simp [stopFn, hr, hinv hr]
    · have hf : st.running = false := by simpa using hr
      simp [stopFn, hf]
  have hrest := runEvents_no_restart evs (stopFn st false).1 h1 hsig hres
  exact ⟨h1, hrest.1, hrest.2⟩

theorem stop_then_never_restart_witness :
    (stopFn runningAgent false).1.running = false
    ∧ (runEvents (stopFn runningAgent false).1
        [Ev.exit 5000 none (some "SIGINT"), Ev.stopCmd]).1.running = false
    ∧ ((runEvents (stopFn runningAgent false).1
        [Ev.exit 5000 none (some "SIGINT"), Ev.stopCmd]).2.any
          ExitAction.isSpawn) = false :=
  stop_then_never_restart runningAgent
    [Ev.exit 5000 none (some "SIGINT"), Ev.stopCmd]
    (fun _ => rfl) (by decide) (by decide)

/-- For any value of `this.name`, the spawn argument vector of
`AgentProcess.start` carries that value in the positional slot after
the script, the profile reference under `-p`, the ordinal index under
`-c`, and exactly those optional fields that are truthy under `-l`,
`-m`, `-t`, `-i`.  The hypotheses only demand that the supplied values
are not themselves flag strings, so that reading a flag's value is
unambiguous. -/
theorem buildArgs_flags (name profile : String) (load_memory : Bool)
    (init_message : Option String) (count_id : Int)
    (task_path task_id : Option String)
    (hn : spawnFlags.contains name = false)
    (hp : spawnFlags.contains profile = false)
    (hc : spawnFlags.contains (toString count_id) = false)
    (hm : notFlag init_message = true)
    (ht : notFlag task_path = true)
    (hi : notFlag task_id = true) :
    (buildArgs name profile load_memory init_message count_id task_path task_id).take 2 =
      ["src/process/init_agent.js", name]
    ∧ flagVal (buildArgs name profile load_memory init_message count_id task_path task_id) "-p"
        = some profile
    ∧ flagVal (buildArgs name profile load_memory init_message count_id task_path task_id) "-c"
        = some (toString count_id)
    ∧ flagVal (buildArgs name profile load_memory init_message count_id task_path task_id) "-l"
        = (if load_memory then some "true" else none)
    ∧ flagVal (buildArgs name profile load_memory init_message count_id task_path task_id) "-m"
        = optTruthy init_message
    ∧ flagVal (buildArgs name profile load_memory init_message count_id task_path task_id) "-t"
        = optTruthy task_path
    ∧ flagVal (buildArgs name profile load_memory init_message count_id task_path task_id) "-i"
        = optTruthy task_id := by
  have triage : ∀ o : Option String, o = none ∨ o = some "" ∨ ∃ s, o = some s ∧ s ≠ "" := by
    intro o
    rcases o with _ | s
    · exact Or.inl rfl
    · by_cases hs : s = ""
      · subst hs
        exact Or.inr (Or.inl rfl)
      · exact Or.inr (Or.inr ⟨s, rfl, hs⟩)
  rcases triage init_message with h | h | ⟨m, h, hme⟩ <;> subst h <;>
    rcases triage task_path with h2 | h2 | ⟨t, h2, hte⟩ <;> subst h2 <;>
      rcases triage task_id with h3 | h3 | ⟨u, h3, hue⟩ <;> subst h3 <;>
        cases load_memory <;>
          simp_all [buildArgs, flagVal, optTruthy, notFlag, spawnFlags, not_or]

/-- Claim C7, counterexample to the claim as stated: a startup agent
whose profile file parses to the name `"andy"` (the key under which the
fleet registry and `mainProxy` register it).  The positional name slot
of the argv spawned for it is `"undefined"` — `main.js` line 123
constructs the supervisor with `new AgentProcess()` and no name — so
the child does not receive the agent's name. -/
theorem startup_name_counterexample :
    (startupSpawnArgs "profiles/andy.json" false none 0 none none).take 2
      = ["src/process/init_agent.js", "undefined"]
    ∧ ("undefined" : String) ≠ "andy" := by
  decide

/-- Claim C7, amended: for every agent started at startup, the spawned
child receives the string `"undefined"` in the positional name slot —
`main.js` constructs the supervisor with `new AgentProcess()`, passing
no name, so `this.name` is `undefined` and the parsed profile name
never reaches the supervisor — together with the profile reference
under `-p`, the ordinal index under `-c`, and exactly those of the
optional fields that were supplied: load-memory flag under `-l`,
initial message under `-m`, task path under `-t`, task id under `-i`. -/
theorem startup_worker_invocation_args (profilePath : String) (load_memory : Bool)
    (init_message : Option String) (i : Int) (task_path task_id : Option String)
    (hp : spawnFlags.contains profilePath = false)
    (hc : spawnFlags.contains (toString i) = false)
    (hm : notFlag init_message = true)
    (ht : notFlag task_path = true)
    (hi : notFlag task_id = true) :
    (startupSpawnArgs profilePath load_memory init_message i task_path task_id).take 2 =
      ["src/process/init_agent.js", "undefined"]
    ∧ flagVal (startupSpawnArgs profilePath load_memory init_message i task_path task_id)
        "-p" = some profilePath
    ∧ flagVal (startupSpawnArgs profilePath load_memory init_message i task_path task_id)
        "-c" = some (toString i)
    ∧ flagVal (startupSpawnArgs profilePath load_memory init_message i task_path task_id)
        "-l" = (if load_memory then some "true" else none)
    ∧ flagVal (startupSpawnArgs profilePath load_memory init_message i task_path task_id)
        "-m" = optTruthy init_message
    ∧ flagVal (startupSpawnArgs profilePath load_memory init_message i task_path task_id)
        "-t" = optTruthy task_path
    ∧ flagVal (startupSpawnArgs profilePath load_memory init_message i task_path task_id)
        "-i" = optTruthy task_id :=
  buildArgs_flags (jsArgString none) profilePath load_memory init_message i
    task_path task_id (by decide) hp hc hm ht hi

theorem startup_worker_invocation_args_witness :
    (startupSpawnArgs "profiles/andy.json" true (some "hello") 0
        (some "tasks/build.json") none).take 2 =
      ["src/process/init_agent.js", "undefined"]
    ∧ flagVal (startupSpawnArgs "profiles/andy.json" true (some "hello") 0
        (some "tasks/build.json") none) "-p" = some "profiles/andy.json"
    ∧ flagVal (startupSpawnArgs "profiles/andy.json" true (some "hello") 0
        (some "tasks/build.json") none) "-c" = some (toString (0 : Int))
    ∧ flagVal (startupSpawnArgs "profiles/andy.json" true (some "hello") 0
        (some "tasks/build.json") none) "-l" = (if true then some "true" else none)
    ∧ flagVal (startupSpawnArgs "profiles/andy.json" true (some "hello") 0
        (some "tasks/build.json") none) "-m" = optTruthy (some "hello")
    ∧ flagVal (startupSpawnArgs "profiles/andy.json" true (some "hello") 0
        (some "tasks/build.json") none) "-t" = optTruthy (some "tasks/build.json")
    ∧ flagVal (startupSpawnArgs "profiles/andy.json" true (some "hello") 0
        (some "tasks/build.json") none) "-i" = optTruthy none :=
  startup_worker_invocation_args "profiles/andy.json" true (some "hello") 0
    (some "tasks/build.json") none (by decide) (by decide) (by decide)
    (by decide) (by decide)

/-! ### The claims about the command registry and dispatcher -/

/-- On a table whose stored names are already case-folded — which is how
`buildCliCommands` stores them — the lookup of `resolveCommand` agrees
with the resolution rule worded over case-folded names. -/
theorem resolve_eq_spec (tok : String) : ∀ (commands : List (String × CmdEntry)),
    commands.all (fun p => jsToLower p.1 == p.1) = true →
    resolveCommand tok commands = resolveSpec tok commands := by
  intro commands
  induction commands with
  | nil => intro _; rfl
  | cons p rest ih =>
    intro hlc
    rw [List.all_cons, Bool.and_eq_true] at hlc
    have h1 : jsToLower p.1 = p.1 := by simpa using hlc.1
    have hr := ih hlc.2
    simp only [resolveCommand, resolveSpec] at hr ⊢
    simp only [List.find?_cons, h1]
    cases hcond : (p.1 == jsToLower tok
        || ((p.2.aliases.map jsToLower).contains (jsToLower tok)))
    · exact hr
    · rfl

/-- Claim C8: on every registry whose stored names are case-folded (as
the registry constructor produces them), `resolveCommand` returns the
canonical name exactly when the case-folded token equals a case-folded
registered name or one of that entry's case-folded aliases; in
particular both `"H"` and `"h"` resolve to `"help"`, whose aliases
include `"h"`. -/
theorem resolveCommand_case_insensitive (commands : List (String × CmdEntry))
    (hlc : commands.all (fun p => jsToLower p.1 == p.1) = true) (tok : String) :
    resolveCommand tok commands = resolveSpec tok commands
    ∧ resolveCommand "H" cliCommands = some "help"
    ∧ resolveCommand "h" cliCommands = some "help" :=
  ⟨resolve_eq_spec tok commands hlc, rfl, rfl⟩

theorem resolveCommand_case_insensitive_witness :
    resolveCommand "H" cliCommands = resolveSpec "H" cliCommands
    ∧ resolveCommand "H" cliCommands = some "help"
    ∧ resolveCommand "h" cliCommands = some "help" :=
  resolveCommand_case_insensitive cliCommands (by decide) "H"

/-- Claim C9: the dispatcher is total.  A line that does not start with
the command prefix after trimming invokes no handler and is a no-op; a
prefixed line whose token does not resolve reports an unknown command
without raising; and a failure thrown by the invoked handler is caught
and reported, never propagated (`dispatch` is a total function into
reported outcomes). -/
theorem dispatch_never_raises (line : String) (commands : List (String × CmdEntry))
    (nm : String) (entry : CmdEntry) (fn : List String → Except String Unit)
    (e : String) :
    (jsStartsWith (jsTrim line) "!" = false →
      dispatch line commands = ⟨none, Outcome.noop⟩)
    ∧ (jsStartsWith (jsTrim line) "!" = true →
      resolveCommand (lineCmd line) commands = none →
      dispatch line commands = ⟨none, Outcome.unknownCommand⟩)
    ∧ (jsStartsWith (jsTrim line) "!" = true →
      resolveCommand (lineCmd line) commands = some nm →
      lookupName commands nm = some entry →
      entry.handler = some fn →
      fn (lineArgs line) = Except.error e →
      dispatch line commands = ⟨some nm, Outcome.errorReported e⟩) := by
  refine ⟨?_, ?_, ?_⟩
  · intro h
    simp [dispatch, parseCommand, h]
  · intro h hres
    have hpc : parseCommand line = some (lineCmd line, lineArgs line) := by
      simp [parseCommand, h, lineCmd, lineArgs]
    simp [dispatch, hpc, hres]
  · intro h hres hlook hhandler herr
    have hpc : parseCommand line = some (lineCmd line, lineArgs line) := by
      simp [parseCommand, h, lineCmd, lineArgs]
    simp [dispatch, hpc, hres, hlook, hhandler, herr]

theorem dispatch_never_raises_witness :
    dispatch "not a command" demoCommands = ⟨none, Outcome.noop⟩
    ∧ dispatch "!unknowncmd" demoCommands = ⟨none, Outcome.unknownCommand⟩
    ∧ dispatch "!BOOM now" demoCommands
        = ⟨some "boom", Outcome.errorReported "boom failed"⟩ :=
  ⟨(dispatch_never_raises "not a command" demoCommands "boom" {} boomHandler
      "boom failed").1 rfl,
   (dispatch_never_raises "!unknowncmd" demoCommands "boom" {} boomHandler
      "boom failed").2.1 rfl rfl,
   (dispatch_never_raises "!BOOM now" demoCommands "boom" boomEntry boomHandler
      "boom failed").2.2 rfl rfl rfl rfl rfl⟩

/-! ### The claim about the startup loop -/

theorem lookupName_mapSet {α : Type} (reg : List (String × α)) (k : String)
    (v : α) (name : String) :
    lookupName (mapSet reg k v) name
      = if name = k then some v else lookupName reg name := by
  induction reg with
  | nil =>
    by_cases h : name = k
    · simp [mapSet, lookupName, h]
    · have h2 : ¬ k = name := fun hh => h hh.symm
      simp [mapSet, lookupName, h, h2]
  | cons p rest ih =>
    by_cases hpk : p.1 = k <;> by_cases hnk : name = k
    · simp [mapSet, lookupName, hpk, hnk]
    · have h2 : ¬ k = name := fun hh => hnk hh.symm
      simp [mapSet, lookupName, hpk, hnk, h2]
    · subst hnk
      simp [mapSet, lookupName, hpk, ih]
    · simp [mapSet, lookupName, hpk, hnk, ih]

theorem mapSet_keys {α : Type} (reg : List (String × α)) (k : String) (v : α) :
    (mapSet reg k v).map Prod.fst =
      if k ∈ reg.map Prod.fst then reg.map Prod.fst
      else reg.map Prod.fst ++ [k] := by
  induction reg with
  | nil => simp [mapSet]
  | cons p rest ih =>
    by_cases hpk : p.1 = k
    · simp [mapSet, hpk]
    · have h2 : ¬ k = p.1 := fun hh => hpk hh.symm
      simp [mapSet, hpk, h2, ih]
      by_cases hk : k ∈ rest.map Prod.fst <;> simp [hk, h2]

theorem mapSet_nodup {α : Type} (reg : List (String × α)) (k : String) (v : α)
    (h : (reg.map Prod.fst).Nodup) : ((mapSet reg k v).map Prod.fst).Nodup := by
  rw [mapSet_keys]
  by_cases hk : k ∈ reg.map Prod.fst
  · simpa [hk] using h
  · simp [hk, List.nodup_append, h]

theorem startupGo_lookup (name : String) : ∀ (ps : List ProfileOutcome) (i : Nat)
    (reg : List (String × Nat)) (sp : List Nat),
    lookupName (startupGo ps i reg sp).1 name =
      match lastOkIndexFrom name i ps with
      | some j => some j
      | none => lookupName reg name := by
  intro ps
  induction ps with
  | nil => intro i reg sp; simp [startupGo, lastOkIndexFrom]
  | cons p rest ih =>
    intro i reg sp
    cases p with
    | readFail =>
      rw [startupGo, ih (i + 1) reg sp]
      cases hrec : lastOkIndexFrom name (i + 1) rest <;>
        simp [lastOkIndexFrom, hrec]
    | parseFail =>
      rw [startupGo, ih (i + 1) reg sp]
      cases hrec : lastOkIndexFrom name (i + 1) rest <;>
        simp [lastOkIndexFrom, hrec]
    | ok nm =>
      rw [startupGo, ih (i + 1) (mapSet reg nm i) (sp ++ [i])]
      cases hrec : lastOkIndexFrom name (i + 1) rest with
      | some j => simp [lastOkIndexFrom, hrec]
      | none =>
        by_cases hnn : name = nm
        · subst hnn
          simp [lastOkIndexFrom, hrec, lookupName_mapSet]
        · have h2 : ¬ nm = name := fun hh => hnn hh.symm
          simp [lastOkIndexFrom, hrec, lookupName_mapSet, hnn, h2]

theorem startupGo_nodup : ∀ (ps : List ProfileOutcome) (i : Nat)
    (reg : List (String × Nat)) (sp : List Nat),
    (reg.map Prod.fst).Nodup → (((startupGo ps i reg sp).1.map Prod.fst)).Nodup := by
  intro ps
  induction ps with
  | nil => intro i reg sp h; simpa [startupGo] using h
  | cons p rest ih =>
    intro i reg sp h
    cases p with
    | readFail => exact ih (i + 1) reg sp h
    | parseFail => exact ih (i + 1) reg sp h
    | ok nm => exact ih (i + 1) (mapSet reg nm i) (sp ++ [i]) (mapSet_nodup reg nm i h)

theorem startupGo_spawned : ∀ (ps : List ProfileOutcome) (i : Nat)
    (reg : List (String × Nat)) (sp : List Nat),
    (startupGo ps i reg sp).2 = sp ++ okIndicesFrom i ps := by
  intro ps
  induction ps with
  | nil => intro i reg sp; simp [startupGo, okIndicesFrom]
  | cons p rest ih =>
    intro i reg sp
    cases p with
    | readFail => simp [startupGo, okIndicesFrom, ih (i + 1) reg sp]
    | parseFail => simp [startupGo, okIndicesFrom, ih (i + 1) reg sp]
    | ok nm => simp [startupGo, okIndicesFrom, ih (i + 1) (mapSet reg nm i) (sp ++ [i])]

/-- Claim C10: the fleet registry built by the startup loop has no
duplicate names; each parsed name is bound to the supervisor of the
last profile that parsed to it (`agentsByName.set` silently overwrites
the earlier binding); and a worker was spawned for every successfully
parsed profile — in particular two profiles parsing to the same name
leave one registry entry, bound to the later supervisor, with both
workers spawned. -/
theorem startup_duplicate_overwrite (ps : List ProfileOutcome) :
    ((runStartup ps).1.map Prod.fst).Nodup
    ∧ (∀ name, lookupName (runStartup ps).1 name = lastOkIndexFrom name 0 ps)
    ∧ (runStartup ps).2 = okIndicesFrom 0 ps
    ∧ lookupName (runStartup [ProfileOutcome.ok "andy", ProfileOutcome.ok "andy"]).1
        "andy" = some 1
    ∧ (runStartup [ProfileOutcome.ok "andy", ProfileOutcome.ok "andy"]).2 = [0, 1] := by
  refine ⟨startupGo_nodup ps 0 [] [] (by simp), ?_, ?_, by decide, by decide⟩
  · intro name
    cases h : lastOkIndexFrom name 0 ps <;>
      simpa [runStartup, lookupName, h] using startupGo_lookup name ps 0 [] []
  · simpa [runStartup] using startupGo_spawned ps 0 [] []

end Mindcraft
